import Mathlib

/-!
Verification of the `fence` repository's specified core.

The repository ships two thin Python scripts:
  * `examples/02-filesystem/demo.py` — a probe harness that attempts a fixed
    sequence of filesystem writes/reads and classifies each outcome;
  * `scripts/local-server.py` — a minimal HTTP echo server for benchmarks.

The filesystem policy engine the spec describes (`RuleSet`, `decide`,
pattern matching, path normalization) is not present in the repository's
source; it is modelled here from the spec's words.  The two scripts are
embedded from their source.
-/

namespace Fence

/-- Modelled from the spec: the operation kind of a filesystem rule
(the engine's code is not in the repository).  Spec §3: Rule.operation is
Read or Write. -/
inductive Operation
  | read
  | write
deriving DecidableEq

/-- Modelled from the spec: the disposition of a rule (Allow or Deny),
§3 Data Model. -/
inductive Disposition
  | allow
  | deny
deriving DecidableEq

/-- Modelled from the spec: PathPattern is one of ExactPath,
DirectoryPrefix, GlobSuffix (§3).  Canonical paths are represented as
lists of path components. -/
inductive PathPattern
  | exact (p : List String)
  | dir (d : List String)
  | glob (g : String)
deriving DecidableEq

/-- Modelled from the spec: a Rule is { operation, disposition, pattern },
immutable once loaded (§3). -/
structure Rule where
  operation : Operation
  disposition : Disposition
  pattern : PathPattern
deriving DecidableEq

/-- Modelled from the spec: a RuleSet maps operation kinds to rules,
conceptually partitioned into allow and deny lists (§3); absence of
`allowRead` implies a configurable default, typically allow-all for reads
(§6), recorded here as the `allowAllReads` flag. -/
structure RuleSet where
  rules : List Rule
  allowAllReads : Bool

/-- Modelled from the spec: a Decision is { allowed, matchedRule, reason }
(§3). -/
structure Decision where
  allowed : Bool
  matchedRule : Option Rule
  reason : String
deriving DecidableEq

/-- Modelled from the spec: a raw (not yet canonical) path, §4.1:
absolute or relative to the monitored process's cwd, with components that
may still contain "." and "..". -/
structure RawPath where
  absolute : Bool
  comps : List String

/-- Modelled from the spec: the Path Normalizer (§4.1).  Resolves a
relative path against `cwd` and collapses "." and ".." segments (empty
segments, as left by a trailing slash, are dropped).  Symlink resolution
is outside the model. -/
def normalize (cwd : List String) (p : RawPath) : List String :=
  p.comps.foldl
    (fun acc c =>
      if c = "" ∨ c = "." then acc
      else if c = ".." then acc.dropLast
      else acc ++ [c])
    (if p.absolute then [] else cwd)

/-- All suffixes of a character list, the list itself and the empty
suffix included. -/
def charSuffixes : List Char → List (List Char)
  | [] => [[]]
  | c :: cs => (c :: cs) :: charSuffixes cs

/-- Modelled from the spec: shell-style glob matching over one filename
component (§4.2 GlobSuffix), case-sensitive; `*` matches any run of
characters (the rest of the pattern must match some suffix of the rest
of the name), `?` matches any single character, literals match
themselves. -/
def globMatch : List Char → List Char → Bool
  | [], s => s.isEmpty
  | '*' :: ps, s => (charSuffixes s).any (fun t => globMatch ps t)
  | '?' :: ps, s =>
    match s with
    | [] => false
    | _ :: cs => globMatch ps cs
  | p :: ps, s =>
    match s with
    | [] => false
    | c :: cs => p == c && globMatch ps cs

/-- Modelled from the spec: component-wise directory prefix test
(§4.2 DirectoryPrefix): every component of the directory is matched
against the corresponding leading component of the path. -/
def dirMatch : List String → List String → Bool
  | [], _ => true
  | _ :: _, [] => false
  | d :: ds, c :: cs => d == c && dirMatch ds cs

/-- Modelled from the spec: the Pattern Matcher contract
`matches(pattern, canonicalPath) -> bool` (§4.2).  ExactPath is equality;
DirectoryPrefix is a component-wise prefix match (the path is the
directory or a descendant); GlobSuffix matches the final filename
component only. -/
def patternMatches : PathPattern → List String → Bool
  | .exact q, path => path == q
  | .dir d, path => dirMatch d path
  | .glob g, path =>
    match path.getLast? with
    | some leaf => globMatch g.data leaf.data
    | none => false

/-- Modelled from the spec: rendering of a pattern for the Decision's
diagnostic reason string ("explicit deny: <pattern>", §4.3). -/
def renderPattern : PathPattern → String
  | .exact p => String.intercalate "/" p
  | .dir d => String.intercalate "/" d
  | .glob g => g

/-- Modelled from the spec: whether a rule applies, i.e. it is declared
for the given operation with the given disposition and its pattern
matches the canonical path (§4.3). -/
def ruleApplies (op : Operation) (d : Disposition) (path : List String) (r : Rule) : Bool :=
  decide (r.operation = op) && decide (r.disposition = d) && patternMatches r.pattern path

/-- Modelled from the spec: the Rule Set contract
`decide(operation, canonicalPath) -> Decision` (§4.3).  Evaluation order:
1. any matching Deny rule yields Deny "explicit deny: <pattern>";
2. else any matching Allow rule yields Allow "explicit allow: <pattern>";
3. else Deny "no matching allow rule", except that a read under the
allow-all-reads default configuration yields Allow.  The first match by
declaration order is reported. -/
def RuleSet.decide (rs : RuleSet) (op : Operation) (path : List String) : Decision :=
  match rs.rules.find? (ruleApplies op Disposition.deny path) with
  | some r => { allowed := false, matchedRule := some r, reason := "explicit deny: " ++ renderPattern r.pattern }
  | none =>
    match rs.rules.find? (ruleApplies op Disposition.allow path) with
    | some r => { allowed := true, matchedRule := some r, reason := "explicit allow: " ++ renderPattern r.pattern }
    | none =>
      match op with
      | .read =>
        if rs.allowAllReads then
          { allowed := true, matchedRule := none, reason := "implicit allow-all for reads" }
        else
          { allowed := false, matchedRule := none, reason := "no matching allow rule" }
      | .write => { allowed := false, matchedRule := none, reason := "no matching allow rule" }

/-- Modelled from the spec: RuleSet construction from the configuration
document's `allowWrite`, `denyWrite`, `denyRead` pattern lists (§6), with
the configurable allow-all-reads default. -/
def mkRuleSet (allowWrite denyWrite denyRead : List PathPattern) (allowAllReads : Bool) : RuleSet :=
  { rules :=
      denyWrite.map (fun p => { operation := .write, disposition := .deny, pattern := p })
        ++ denyRead.map (fun p => { operation := .read, disposition := .deny, pattern := p })
        ++ allowWrite.map (fun p => { operation := .write, disposition := .allow, pattern := p }),
    allowAllReads := allowAllReads }

/-- A concrete working directory for the spec's `./…` example paths. -/
def demoCwd : List String := ["home", "user", "demo"]

/-- The spec's end-to-end RuleSet (§8): allowWrite ["./output/"],
denyWrite [".env", "*.key"], denyRead ["/etc/shadow"], reads allowed by
default. -/
def rsDemo : RuleSet :=
  mkRuleSet
    [PathPattern.dir (normalize demoCwd ⟨false, [".", "output", ""]⟩)]
    [PathPattern.exact (normalize demoCwd ⟨false, [".", ".env"]⟩), PathPattern.glob "*.key"]
    [PathPattern.exact (normalize [] ⟨true, ["etc", "shadow"]⟩)]
    true

/-- A RuleSet whose allow rule is broad (the whole working directory is
writable) while `*.key` files are denied, for the spec's pattern
specificity scenario (§8). -/
def rsBroad : RuleSet :=
  mkRuleSet [PathPattern.dir demoCwd] [PathPattern.glob "*.key"] [] true

end Fence

namespace Demo

/-!
Embedding of `examples/02-filesystem/demo.py`: the probe harness that
attempts a fixed sequence of filesystem operations and classifies each
outcome by the exception raised (if any).
-/

/-- The kind of a probe in the demo: `try_write` or `try_read`. -/
inductive ProbeKind
  | write
  | read
deriving DecidableEq

/-- One probe of `main()`: its kind, target path (as written in the
script, relative paths being relative to the script directory after the
initial `os.chdir`), and description string. -/
structure Probe where
  kind : ProbeKind
  path : String
  description : String
deriving DecidableEq

/-- The seven probes of `main()` (demo.py lines 104-123), in order. -/
def demoProbes : List Probe :=
  [ { kind := .write, path := "output/data.txt", description := "Write to ./output/ (allowed)" },
    { kind := .write, path := "unauthorized.txt", description := "Write to ./ (not in allowWrite)" },
    { kind := .write, path := ".env", description := "Write to .env (in denyWrite)" },
    { kind := .write, path := "secrets.key", description := "Write to *.key (in denyWrite)" },
    { kind := .read, path := "demo.py", description := "Read ./demo.py (allowed)" },
    { kind := .read, path := "/etc/shadow", description := "Read /etc/shadow (in denyRead)" },
    { kind := .read, path := "/etc/passwd", description := "Read /etc/passwd (in denyRead)" } ]

/-- The outcome of the underlying filesystem operation of one probe:
it completes, or raises PermissionError, FileNotFoundError, or some
other OSError.  (Non-OSError exceptions would propagate out of the
harness and are outside the model.) -/
inductive Outcome
  | success
  | permissionError
  | fileNotFound
  | otherOSError
deriving DecidableEq

/-- The status string `try_write` records (demo.py lines 29-43): the
`try` body completing logs "success"; `except PermissionError` logs
"blocked"; `except OSError` logs "blocked".  FileNotFoundError is a
subclass of OSError and `try_write` has no branch for it, so it falls
to the OSError branch. -/
def tryWriteStatus : Outcome → String
  | .success => "success"
  | .permissionError => "blocked"
  | .fileNotFound => "blocked"
  | .otherOSError => "blocked"

/-- The status string `try_read` records (demo.py lines 45-60):
"success" on completion, "blocked" on PermissionError, "skipped" on
FileNotFoundError, "blocked" on any other OSError. -/
def tryReadStatus : Outcome → String
  | .success => "success"
  | .permissionError => "blocked"
  | .fileNotFound => "skipped"
  | .otherOSError => "blocked"

/-- Status recorded for a probe of either kind. -/
def probeStatus : ProbeKind → Outcome → String
  | .write, o => tryWriteStatus o
  | .read, o => tryReadStatus o

/-- One record appended to `results` by `log` (demo.py lines 23-26);
the human-readable message string is not modelled. -/
structure DemoResult where
  operation : String
  status : String
deriving DecidableEq

/-- The result record a probe appends, given the outcome of its
filesystem operation. -/
def demoResult (p : Probe) (o : Outcome) : DemoResult :=
  { operation := p.description, status := probeStatus p.kind o }

/-- The `results` list after `main()` has run all seven probes, as a
function of the outcome the environment (OS plus fence) gives each
probe. -/
def runDemo (env : Probe → Outcome) : List DemoResult :=
  demoProbes.map (fun p => demoResult p (env p))

/-- `blocked = sum(1 for r in results if r["status"] == "blocked")`
(demo.py line 129). -/
def summaryBlocked (rs : List DemoResult) : Nat :=
  rs.countP (fun r => r.status == "blocked")

/-- `succeeded = sum(1 for r in results if r["status"] == "success")`
(demo.py line 130). -/
def summarySucceeded (rs : List DemoResult) : Nat :=
  rs.countP (fun r => r.status == "success")

/-- `skipped = sum(1 for r in results if r["status"] == "skipped")`
(demo.py line 131). -/
def summarySkipped (rs : List DemoResult) : Nat :=
  rs.countP (fun r => r.status == "skipped")

end Demo

namespace Server

/-!
Embedding of `scripts/local-server.py`: the benchmark HTTP handler's
`do_GET` and `do_POST`, together with a model of `json.dumps` on the
flat string-to-string dictionaries the handler serializes.
-/

/-- One hex digit of `\uXXXX` escapes (lowercase, as Python emits). -/
def hex4 (n : Nat) : String :=
  String.mk
    [Nat.digitChar (n / 4096 % 16), Nat.digitChar (n / 256 % 16),
     Nat.digitChar (n / 16 % 16), Nat.digitChar (n % 16)]

/-- How `json.dumps` (default options, `ensure_ascii=True`) renders one
character of a string: `"` and `\` are backslash-escaped, the control
characters with short escapes use them, every other character outside
printable ASCII (0x20-0x7e) becomes `\uXXXX` (a surrogate pair beyond
the BMP), and printable ASCII is emitted as itself. -/
def escapeChar (c : Char) : String :=
  if c = '\"' then "\\\""
  else if c = '\\' then "\\\\"
  else if c = '\n' then "\\n"
  else if c = '\r' then "\\r"
  else if c = '\t' then "\\t"
  else if c = '\x08' then "\\b"
  else if c = '\x0c' then "\\f"
  else if c.toNat < 0x20 ∨ 0x7e < c.toNat then
    if c.toNat < 0x10000 then "\\u" ++ hex4 c.toNat
    else
      "\\u" ++ hex4 (0xd800 + (c.toNat - 0x10000) / 0x400)
        ++ "\\u" ++ hex4 (0xdc00 + (c.toNat - 0x10000) % 0x400)
  else String.singleton c

/-- `json.dumps` on a string: quotes around the escaped characters. -/
def jsonString (s : String) : String :=
  "\"" ++ String.join (s.data.map escapeChar) ++ "\""

/-- `json.dumps` on a flat dict with string keys and string values,
default separators (", " between items, ": " after a key). -/
def jsonDumpsStrObj (fields : List (String × String)) : String :=
  "\x7b" ++ String.intercalate ", " (fields.map (fun kv => jsonString kv.1 ++ ": " ++ jsonString kv.2)) ++ "\x7d"

/-- The response the handler sends: `send_response(status)`, the headers
added by `send_header`, and the bytes written to `wfile`. -/
structure HttpResponse where
  status : Nat
  headers : List (String × String)
  body : String
deriving DecidableEq

/-- ASCII lowercase of one character (header names are ASCII). -/
def lowerChar (c : Char) : Char :=
  if 'A' ≤ c ∧ c ≤ 'Z' then Char.ofNat (c.toNat + 32) else c

/-- ASCII lowercase of a string. -/
def lowerStr (s : String) : String :=
  String.mk (s.data.map lowerChar)

/-- `self.headers.get(k)`: header lookup, case-insensitive on the header
name as in `email.message.Message`. -/
def headerGet (hs : List (String × String)) (k : String) : Option String :=
  (hs.find? (fun kv => lowerStr kv.1 == lowerStr k)).map (fun kv => kv.2)

/-- `do_GET` (local-server.py lines 27-33): status 200, Content-Type
application/json, body `json.dumps({"status": "ok", "path": self.path})`. -/
def do_GET (path : String) : HttpResponse :=
  { status := 200,
    headers := [("Content-Type", "application/json")],
    body := jsonDumpsStrObj [("status", "ok"), ("path", path)] }

/-- The exception `int(...)` raises on a malformed literal. -/
inductive PyErr
  | valueError
deriving DecidableEq

/-- Python whitespace stripped by `int(str)`. -/
def isPySpace (c : Char) : Bool :=
  c = ' ' || c = '\t' || c = '\n' || c = '\r' || c = '\x0b' || c = '\x0c'

/-- Digit run of a Python int literal: after a first digit, single
underscores may separate digits; a leading, trailing or doubled
underscore is invalid. -/
def digitsRest (acc : Nat) : List Char → Option Nat
  | [] => some acc
  | '_' :: c :: cs => if c.isDigit then digitsRest (acc * 10 + (c.toNat - 48)) cs else none
  | ['_'] => none
  | c :: cs => if c.isDigit then digitsRest (acc * 10 + (c.toNat - 48)) cs else none

/-- A nonempty digit run (with optional internal underscores). -/
def parseDigits : List Char → Option Nat
  | [] => none
  | c :: cs => if c.isDigit then digitsRest (c.toNat - 48) cs else none

/-- Model of Python's `int(str)`: strip surrounding whitespace, an
optional sign, then a digit run; anything else raises ValueError
(returned as `none`). -/
def pyInt? (s : String) : Option Int :=
  let t := ((s.data.dropWhile isPySpace).reverse.dropWhile isPySpace).reverse
  match t with
  | '+' :: rest => (parseDigits rest).map Int.ofNat
  | '-' :: rest => (parseDigits rest).map (fun n => -(Int.ofNat n))
  | rest => (parseDigits rest).map Int.ofNat

/-- `int(self.headers.get("Content-Length", 0))` (local-server.py line
37): a missing header yields the int default 0; a present header value
is parsed by `int`, raising ValueError when malformed. -/
def contentLengthOf (headers : List (String × String)) : Except PyErr Int :=
  match headerGet headers "Content-Length" with
  | none => Except.ok 0
  | some v =>
    match pyInt? v with
    | none => Except.error PyErr.valueError
    | some n => Except.ok n

/-- `self.rfile.read(n)`: at most `n` bytes of the request body for
`n ≥ 0`; a negative `n` reads to end of stream. -/
def rfileRead (body : String) (n : Int) : String :=
  if n < 0 then body else String.mk (body.data.take n.toNat)

/-- The fixed response of `do_POST`: status 200, Content-Type
application/json, body `json.dumps({"status": "ok", "method": "POST"})`. -/
def postResponse : HttpResponse :=
  { status := 200,
    headers := [("Content-Type", "application/json")],
    body := jsonDumpsStrObj [("status", "ok"), ("method", "POST")] }

/-- `do_POST` (local-server.py lines 35-43): read and discard
`content_length` bytes of body, then send the fixed JSON response.  The
result pairs the response with the discarded bytes; a ValueError from
`int(...)` propagates (the base handler sends no response then). -/
def do_POST (headers : List (String × String)) (body : String) :
    Except PyErr (HttpResponse × String) :=
  match contentLengthOf headers with
  | Except.error e => Except.error e
  | Except.ok n => Except.ok (postResponse, rfileRead body n)

end Server

/-! Helper lemmas. -/

/-- Component-wise directory matching is exactly list-prefix: the
directory's components followed by some (possibly empty) tail give the
path's components. -/
theorem Fence.dirMatch_iff (d p : List String) :
    Fence.dirMatch d p = true ↔ ∃ t, p = d ++ t := by
  induction d generalizing p with
  | nil => simp [Fence.dirMatch]
  | cons x ds ih =>
    cases p with
    | nil => simp [Fence.dirMatch]
    | cons y ps =>
      simp only [Fence.dirMatch, Bool.and_eq_true, beq_iff_eq, ih, List.cons_append,
        List.cons.injEq]
      constructor
      · rintro ⟨rfl, t, rfl⟩
        exact ⟨t, rfl, rfl⟩
      · rintro ⟨t, h1, h2⟩
        exact ⟨h1.symm, t, h2⟩

/-- Every probe's recorded status is one of the three strings the demo's
summary counts. -/
theorem Demo.probeStatus_cases (k : Demo.ProbeKind) (o : Demo.Outcome) :
    Demo.probeStatus k o = "success" ∨ Demo.probeStatus k o = "blocked"
      ∨ Demo.probeStatus k o = "skipped" := by
  cases k <;> cases o <;> simp [Demo.probeStatus, Demo.tryWriteStatus, Demo.tryReadStatus]

/-- When every status in a result list is success, blocked or skipped,
the three summary counts sum to the list's length. -/
theorem Demo.count_three_sum (l : List Demo.DemoResult)
    (h : ∀ r ∈ l, r.status = "success" ∨ r.status = "blocked" ∨ r.status = "skipped") :
    Demo.summaryBlocked l + Demo.summarySucceeded l + Demo.summarySkipped l = l.length := by
  induction l with
  | nil => rfl
  | cons a t ih =>
    have ha := h a (List.mem_cons_self a t)
    have iht := ih (fun r hr => h r (List.mem_cons_of_mem a hr))
    simp only [Demo.summaryBlocked, Demo.summarySucceeded, Demo.summarySkipped,
      List.countP_cons, List.length_cons] at iht ⊢
    rcases ha with h1 | h1 | h1 <;> simp [h1] <;> omega

/-! The claims. -/

/-- C1: for every RuleSet, operation kind and canonical path, if both a
Deny rule and an Allow rule for that operation match the path, then
`decide(operation, path)` yields Deny — an explicit allow never
overrides an explicit deny. -/
theorem deny_overrides_allow (rs : Fence.RuleSet) (op : Fence.Operation) (path : List String)
    (hd : ∃ r ∈ rs.rules, r.operation = op ∧ r.disposition = Fence.Disposition.deny
      ∧ Fence.patternMatches r.pattern path = true)
    (ha : ∃ r ∈ rs.rules, r.operation = op ∧ r.disposition = Fence.Disposition.allow
      ∧ Fence.patternMatches r.pattern path = true) :
    (rs.decide op path).allowed = false := by
  rcases hd with ⟨r, hr, h1, h2, h3⟩
  have hpred : Fence.ruleApplies op Fence.Disposition.deny path r = true := by
    simp [Fence.ruleApplies, h1, h2, h3]
  cases hfind : rs.rules.find? (Fence.ruleApplies op Fence.Disposition.deny path) with
  | none => exact absurd hpred (List.find?_eq_none.mp hfind r hr)
  | some r' => simp [Fence.RuleSet.decide, hfind]

/-- C1 witness: in the broad RuleSet both the `*.key` Deny rule and the
working-directory Allow rule match `./secrets.key`, and the decision is
Deny. -/
theorem deny_overrides_allow_exec :
    (Fence.rsBroad.decide Fence.Operation.write
      (Fence.normalize Fence.demoCwd ⟨false, [".", "secrets.key"]⟩)).allowed = false :=
  deny_overrides_allow Fence.rsBroad Fence.Operation.write
    (Fence.normalize Fence.demoCwd ⟨false, [".", "secrets.key"]⟩) (by decide) (by decide)

/-- C2: a Write on a path matched by no rule of the RuleSet is denied
with reason "no matching allow rule" (default-deny posture). -/
theorem write_unmatched_default_deny (rs : Fence.RuleSet) (path : List String)
    (h : ∀ r ∈ rs.rules, Fence.patternMatches r.pattern path = false) :
    rs.decide Fence.Operation.write path =
      { allowed := false, matchedRule := none, reason := "no matching allow rule" } := by
  have key : ∀ d, rs.rules.find? (Fence.ruleApplies Fence.Operation.write d path) = none := by
    intro d
    refine List.find?_eq_none.mpr ?_
    intro r hr hp
    simp only [Fence.ruleApplies, Bool.and_eq_true, decide_eq_true_eq] at hp
    rcases hp with ⟨-, h3⟩
    rw [h r hr] at h3
    exact Bool.false_ne_true h3
  simp [Fence.RuleSet.decide, key]

/-- C2 witness: with allowWrite ["./output/"] (the end-to-end RuleSet)
no rule matches `./unauthorized.txt`, and the write is denied with
reason "no matching allow rule". -/
theorem write_unmatched_default_deny_exec :
    Fence.rsDemo.decide Fence.Operation.write
        (Fence.normalize Fence.demoCwd ⟨false, [".", "unauthorized.txt"]⟩)
      = { allowed := false, matchedRule := none, reason := "no matching allow rule" } :=
  write_unmatched_default_deny Fence.rsDemo
    (Fence.normalize Fence.demoCwd ⟨false, [".", "unauthorized.txt"]⟩) (by decide)

/-- C4: GlobSuffix applies only to the final filename component and
does not over-match: with denyWrite ["*.key"] and a broader allow,
`./secrets.key` is denied, `./secrets.keyx` is allowed, and `*.key`
does not match `secrets.key.bak`. -/
theorem glob_suffix_specificity :
    (Fence.rsBroad.decide Fence.Operation.write
        (Fence.normalize Fence.demoCwd ⟨false, [".", "secrets.key"]⟩)).allowed = false
      ∧ (Fence.rsBroad.decide Fence.Operation.write
          (Fence.normalize Fence.demoCwd ⟨false, [".", "secrets.keyx"]⟩)).allowed = true
      ∧ Fence.patternMatches (Fence.PathPattern.glob "*.key")
          (Fence.normalize Fence.demoCwd ⟨false, [".", "secrets.key.bak"]⟩) = false := by
  decide

/-- C5: DirectoryPrefix matching is component-wise, not naive string
prefix: `matches(dir d, p)` holds exactly when `p` is `d` or a
descendant of `d`; with allowWrite ["./output/"], `./output/data.txt`
is allowed to be written and `./outsider.txt` is not. -/
theorem dir_prefix_componentwise :
    (∀ d p : List String,
        Fence.patternMatches (Fence.PathPattern.dir d) p = true
          ↔ (p = d ∨ ∃ rest, rest ≠ [] ∧ p = d ++ rest))
      ∧ (Fence.rsDemo.decide Fence.Operation.write
          (Fence.normalize Fence.demoCwd ⟨false, [".", "output", "data.txt"]⟩)).allowed = true
      ∧ (Fence.rsDemo.decide Fence.Operation.write
          (Fence.normalize Fence.demoCwd ⟨false, [".", "outsider.txt"]⟩)).allowed = false := by
  refine ⟨?_, by decide, by decide⟩
  intro d p
  rw [show Fence.patternMatches (Fence.PathPattern.dir d) p = Fence.dirMatch d p from rfl,
    Fence.dirMatch_iff]
  constructor
  · rintro ⟨t, rfl⟩
    cases t with
    | nil => left; simp
    | cons a t => right; exact ⟨a :: t, by simp, rfl⟩
  · rintro (rfl | ⟨rest, -, rfl⟩)
    · exact ⟨[], by simp⟩
    · exact ⟨rest, rfl⟩

/-- C3: the demo's probes classify outcomes by exception type:
`try_write` and `try_read` record "success" on completion and "blocked"
on PermissionError and on any other OSError, while `try_read` records
"skipped" on FileNotFoundError — so in a read probe's report a policy
block is distinguishable from a missing file. -/
theorem demo_status_classification :
    Demo.tryWriteStatus Demo.Outcome.success = "success"
      ∧ Demo.tryReadStatus Demo.Outcome.success = "success"
      ∧ Demo.tryWriteStatus Demo.Outcome.permissionError = "blocked"
      ∧ Demo.tryReadStatus Demo.Outcome.permissionError = "blocked"
      ∧ Demo.tryWriteStatus Demo.Outcome.otherOSError = "blocked"
      ∧ Demo.tryReadStatus Demo.Outcome.otherOSError = "blocked"
      ∧ Demo.tryReadStatus Demo.Outcome.fileNotFound = "skipped"
      ∧ Demo.tryReadStatus Demo.Outcome.permissionError ≠ Demo.tryReadStatus Demo.Outcome.fileNotFound := by
  refine ⟨rfl, rfl, rfl, rfl, rfl, rfl, rfl, ?_⟩
  decide

/-- C6: the demo harness performs exactly seven probes in a fixed
order: four writes (output/data.txt, unauthorized.txt, .env,
secrets.key) then three reads (demo.py, /etc/shadow, /etc/passwd). -/
theorem demo_seven_probes :
    Demo.demoProbes.map (fun p => (p.kind, p.path)) =
        [(Demo.ProbeKind.write, "output/data.txt"), (Demo.ProbeKind.write, "unauthorized.txt"),
         (Demo.ProbeKind.write, ".env"), (Demo.ProbeKind.write, "secrets.key"),
         (Demo.ProbeKind.read, "demo.py"), (Demo.ProbeKind.read, "/etc/shadow"),
         (Demo.ProbeKind.read, "/etc/passwd")]
      ∧ Demo.demoProbes.length = 7 :=
  ⟨rfl, rfl⟩

/-- C7: whatever outcome the environment gives each probe, the demo's
summary counts (blocked, succeeded, skipped) each equal the number of
recorded results with that status, and the three counts sum to the
total number of probes, which is 7. -/
theorem demo_summary_counts (env : Demo.Probe → Demo.Outcome) :
    Demo.summaryBlocked (Demo.runDemo env)
        = ((Demo.runDemo env).filter (fun r => r.status == "blocked")).length
      ∧ Demo.summarySucceeded (Demo.runDemo env)
        = ((Demo.runDemo env).filter (fun r => r.status == "success")).length
      ∧ Demo.summarySkipped (Demo.runDemo env)
        = ((Demo.runDemo env).filter (fun r => r.status == "skipped")).length
      ∧ Demo.summaryBlocked (Demo.runDemo env) + Demo.summarySucceeded (Demo.runDemo env)
          + Demo.summarySkipped (Demo.runDemo env) = (Demo.runDemo env).length
      ∧ (Demo.runDemo env).length = 7 := by
  refine ⟨List.countP_eq_length_filter _ _, List.countP_eq_length_filter _ _,
    List.countP_eq_length_filter _ _, ?_, ?_⟩
  · apply Demo.count_three_sum
    intro r hr
    rcases List.mem_map.mp hr with ⟨p, hp, rfl⟩
    exact Demo.probeStatus_cases p.kind (env p)
  · simp [Demo.runDemo, Demo.demoProbes]

/-- C9: a write probe never yields status "skipped": `try_write` has no
FileNotFoundError branch, so a FileNotFoundError during a write (a
subclass of OSError) is classified "blocked". -/
theorem write_probe_never_skipped :
    (∀ o : Demo.Outcome, Demo.tryWriteStatus o ≠ "skipped")
      ∧ Demo.tryWriteStatus Demo.Outcome.fileNotFound = "blocked" := by
  refine ⟨fun o => ?_, rfl⟩
  cases o <;> decide

/-- C8 counterexample: a POST request whose Content-Length header is
not an integer literal makes `int(...)` raise ValueError, so the
handler does not respond 200 with the fixed body. -/
theorem post_malformed_content_length_raises :
    Server.do_POST [("Content-Length", "abc")] "body" = Except.error Server.PyErr.valueError :=
  rfl

/-- C8 (amended): every GET request gets status 200, Content-Type
application/json and body \x7b"status": "ok", "path": <path>\x7d; every
POST request whose Content-Length header, when present, is a
well-formed integer gets status 200 and the fixed JSON body, whatever
the request body is. -/
theorem server_benchmark_responses (path body : String) (headers : List (String × String))
    (h : ∀ v, Server.headerGet headers "Content-Length" = some v
      → (Server.pyInt? v).isSome = true) :
    (Server.do_GET path).status = 200
      ∧ Server.headerGet (Server.do_GET path).headers "Content-Type" = some "application/json"
      ∧ (Server.do_GET path).body = Server.jsonDumpsStrObj [("status", "ok"), ("path", path)]
      ∧ (Server.do_GET "/bench").body = "\x7b\"status\": \"ok\", \"path\": \"/bench\"\x7d"
      ∧ (∃ consumed, Server.do_POST headers body = Except.ok (Server.postResponse, consumed))
      ∧ Server.postResponse.status = 200
      ∧ Server.postResponse.body = "\x7b\"status\": \"ok\", \"method\": \"POST\"\x7d" := by
  refine ⟨rfl, rfl, rfl, by decide, ?_, rfl, by decide⟩
  cases hv : Server.headerGet headers "Content-Length" with
  | none =>
    exact ⟨Server.rfileRead body 0, by simp [Server.do_POST, Server.contentLengthOf, hv]⟩
  | some v =>
    rcases Option.isSome_iff_exists.mp (h v hv) with ⟨n, hn⟩
    exact ⟨Server.rfileRead body n, by simp [Server.do_POST, Server.contentLengthOf, hv, hn]⟩

/-- C8 witness: the amended statement at a GET for "/bench" and a POST
with no headers and body "payload". -/
theorem server_benchmark_responses_exec :
    (Server.do_GET "/bench").status = 200
      ∧ Server.headerGet (Server.do_GET "/bench").headers "Content-Type" = some "application/json"
      ∧ (Server.do_GET "/bench").body = Server.jsonDumpsStrObj [("status", "ok"), ("path", "/bench")]
      ∧ (Server.do_GET "/bench").body = "\x7b\"status\": \"ok\", \"path\": \"/bench\"\x7d"
      ∧ (∃ consumed, Server.do_POST [] "payload" = Except.ok (Server.postResponse, consumed))
      ∧ Server.postResponse.status = 200
      ∧ Server.postResponse.body = "\x7b\"status\": \"ok\", \"method\": \"POST\"\x7d" :=
  server_benchmark_responses "/bench" "payload" [] (fun _ hv => Option.noConfusion hv)

/-- C10: a POST request lacking a Content-Length header is treated as
having body length 0: no body bytes are read and the handler still
responds with status 200 and the fixed JSON body. -/
theorem post_without_content_length (headers : List (String × String)) (body : String)
    (h : Server.headerGet headers "Content-Length" = none) :
    Server.contentLengthOf headers = Except.ok 0
      ∧ Server.do_POST headers body = Except.ok (Server.postResponse, "") := by
  have hc : Server.contentLengthOf headers = Except.ok 0 := by
    simp [Server.contentLengthOf, h]
  refine ⟨hc, ?_⟩
  simp [Server.do_POST, hc, Server.rfileRead]

/-- C10 witness: a POST with no headers at all and body "xyz". -/
theorem post_without_content_length_exec :
    Server.contentLengthOf [] = Except.ok 0
      ∧ Server.do_POST [] "xyz" = Except.ok (Server.postResponse, "") :=
  post_without_content_length [] "xyz" rfl
